import Mathlib

/-!
Verification of the phetmarks dev-ops server and dashboard against its
specification.

The embedding covers:
* `src/phettest/phettest-server.js` — the HTTP server: the `execute` command
  runner, the repository operations (`pull`, `npmUpdate`, `grunt`,
  `gruntOutputJS`, `gruntOutputJSAll`, `isSameAsRemoteMaster`), the task
  handlers (`taskBuild`, `taskPull`, `taskPullAll`, `taskPerennialRefresh`,
  `taskSameAsRemoteMaster`) and `validateSimName`;
* the dashboard client (phettest.js, `src/unnamed/part_005`) — the
  sequential same-as-remote-master aggregation pass (`checkSimSameMaster` /
  `checkSim`) and its status bookkeeping.

Modelling conventions:
* A spawned child process is driven by the events its host delivers
  (`PEvent`): an `error` event (failed spawn), data events, and a `close`
  event carrying `code : Option Int` (JavaScript delivers a number or
  `null`).  Node.js documents that after an `error` event the exit events
  may or may not fire, so an event list is the honest model.
* At the request level every spawn is assumed to complete with a close
  event; `c : Nat → Option Int` gives the close code of the i-th spawned
  process of the request, in spawn order.  Spawn failure without a close
  event is analysed separately at the `execute` level.
* A request handler produces a timeline of `Action`s: process spawns and
  HTTP responses, in the order the server performs them.
* JavaScript `undefined` (an absent query parameter) is `Option.none`, and
  a thrown `TypeError` is an `Except.error`.
-/

namespace Phetmarks

/-- An external command: executable, argument vector and working directory,
as passed to `child_process.spawn` in `execute` (phettest-server.js:27-35). -/
structure Cmd where
  cmd : String
  args : List String
  cwd : String
deriving DecidableEq, Repr

/-- The JSON response envelope `{ output, success }` written by
`successFunction` / `errorFunction` and the validation branches. -/
structure Response where
  output : String
  success : Bool
deriving DecidableEq, Repr

/-- One observable step of a request handler: spawning a process, or writing
an HTTP response (with its status code). -/
inductive Action where
  | spawn (c : Cmd)
  | respond (status : Nat) (r : Response)
deriving DecidableEq, Repr

/-- The JavaScript runtime error that concerns us: a `TypeError` from
reading a property of `undefined`. -/
inductive JSError where
  | typeError
deriving DecidableEq, Repr

/-- JavaScript string interpolation of a number-or-null exit code:
`${code}` prints `null` for the null value. -/
def jsCodeString : Option Int → String
  | none => "null"
  | some n => toString n

/-- The envelope produced by `errorFunction( req, res, name )` at exit code
`code`: output is `name exit code code`, success is false
(phettest-server.js:117-126). -/
def errorResponse (name : String) (code : Option Int) : Response :=
  ⟨name ++ " exit code " ++ jsCodeString code, false⟩

/-! ### The command runner `execute` (phettest-server.js:27-59)

`execute( cmd, args, cwd, callback, errCallback )` registers four event
handlers on the spawned process:
* `error`   — logs `uncaught error: ...` and nothing else (lines 38-40);
* `stderr.data` / `stdout.data` — log the data (lines 41-46);
* `close code` — logs, then `code !== 0` invokes `errCallback( code )`,
  otherwise `callback()` (lines 47-58).
-/

/-- An event delivered by the host for one spawned process. -/
inductive PEvent where
  | errorEvt
  | stderrData (s : String)
  | stdoutData (s : String)
  | closeEvt (code : Option Int)
deriving DecidableEq, Repr

/-- A continuation invocation performed by `execute`: the success callback,
or the failure callback with the close code it received. -/
inductive ContCall where
  | success
  | failure (code : Option Int)
deriving DecidableEq, Repr

/-- What `execute`'s handlers have done so far: console log lines and
continuation invocations, each in order. -/
structure ExecOutcome where
  logs : List String
  calls : List ContCall
deriving DecidableEq, Repr

/-- Direct embedding of the four event handlers registered by `execute`.
The `error` handler only logs (phettest-server.js:38-40); the `close`
handler dispatches on `code !== 0` (phettest-server.js:47-58).  JavaScript
`code !== 0` is true for `null`, so the null code goes to the failure
callback. -/
def handleEvent : PEvent → ExecOutcome → ExecOutcome
  | .errorEvt, st => { st with logs := st.logs ++ ["uncaught error"] }
  | .stderrData s, st => { st with logs := st.logs ++ ["stderr: " ++ s] }
  | .stdoutData s, st => { st with logs := st.logs ++ ["stdout: " ++ s] }
  | .closeEvt code, st =>
      { st with
        logs := st.logs ++ ["finished executing"],
        calls := st.calls ++ [if code ≠ some 0 then ContCall.failure code else ContCall.success] }

/-- Run `execute`'s handlers over the events the host delivers for the
spawned process. -/
def executeRun (events : List PEvent) : ExecOutcome :=
  events.foldl (fun st e => handleEvent e st) ⟨[], []⟩

/-! ### Repository operations and their commands

`rootDir` is `path.normalize( __dirname + '/../../' )` (phettest-server.js:24);
its concrete value is host-dependent and no claim depends on it, so a fixed
relative string stands in for it.  `ON_WIN` tests the platform prefix
(phettest-server.js:21); the deployment host (bayes, per the repository's
documentation) is posix, so it is false and the posix executable names are
used. -/

def rootDir : String := "../../"

/-- Command of `pull`'s first step: `git pull` in the repo's directory
(phettest-server.js:62-65). -/
def gitPullCmd (repo : String) : Cmd :=
  ⟨"git", ["pull"], rootDir ++ repo⟩

/-- Command of `npmUpdate( repo )` (phettest-server.js:68-71). -/
def npmUpdateCmd (repo : String) : Cmd :=
  ⟨"npm", ["update"], rootDir ++ repo⟩

/-- Command of `grunt( repo )` (phettest-server.js:74-77). -/
def gruntCmd (repo : String) : Cmd :=
  ⟨"grunt", ["--no-color", "--minify.uglify=false"], rootDir ++ repo⟩

/-- Command of `gruntOutputJS( repo )` (phettest-server.js:79-81). -/
def gruntOutputJSCmd (repo : String) : Cmd :=
  ⟨"grunt", ["output-js", "--no-color"], rootDir ++ repo⟩

/-- Command of `gruntOutputJSAll` (phettest-server.js:83-85). -/
def gruntOutputJSAllCmd : Cmd :=
  ⟨"grunt", ["output-js-all", "--no-color"], rootDir ++ "chipper"⟩

/-- Command of `isSameAsRemoteMaster( repo )` (phettest-server.js:87-90). -/
def sameAsRemoteMasterCmd (repo : String) : Cmd :=
  ⟨"bash", ["../phetmarks/phettest/same-as-remote-master.sh"], rootDir ++ repo⟩

/-- Command of the clone-missing-repos step of `taskPerennialRefresh`
(phettest-server.js:186). -/
def cloneMissingReposCmd : Cmd :=
  ⟨"bash", [rootDir ++ "perennial/bin/clone-missing-repos.sh"], rootDir⟩

/-- Command of `taskPullAll`'s first step (phettest-server.js:222). -/
def pullAllCmd : Cmd :=
  ⟨"bash", [rootDir ++ "perennial/bin/pull-all.sh", "-p"], rootDir⟩

/-! ### Request-level interpretation of `execute`

At the request level every spawned process is assumed to run to completion;
`code` is the value the close event delivers.  `execT` records the spawn and
then continues with `callback` or `errCallback code` exactly as `execute`'s
close handler does (`code !== 0` selects the failure branch, so a null code
also fails). -/

/-- One `execute` call inside a request handler: spawn `c`, then on close
code `code` run the failure continuation (for `code !== 0`) or the success
continuation, returning the remaining action timeline. -/
def execT (c : Cmd) (code : Option Int)
    (callback : List Action) (errCallback : Option Int → List Action) : List Action :=
  Action.spawn c :: (if code ≠ some 0 then errCallback code else callback)

/-- The operation `pull( repo, callback, errCallback )`: `git pull`, then on
success `gruntOutputJS( repo, callback, errCallback )`; both steps share
`errCallback` (phettest-server.js:62-65).  `c0`, `c1` are the two close
codes. -/
def pullRun (repo : String) (c0 c1 : Option Int)
    (callback : List Action) (errCallback : Option Int → List Action) : List Action :=
  execT (gitPullCmd repo) c0
    (execT (gruntOutputJSCmd repo) c1 callback errCallback)
    errCallback

/-! ### Name validation (phettest-server.js:245-257) -/

/-- The per-character test of `validateSimName`'s loop: the loop returns
false at the first `charCode` that is not the hyphen (45) and not in the
lowercase range 97..122 (phettest-server.js:248-255).  A character passes
when that condition fails. -/
def validCharCode (n : Nat) : Bool :=
  !(n ≠ 45 && (n < 97 || 122 < n))

/-- `validateSimName( simName )` for an actual string: true exactly when
every character code passes the loop's test. -/
def validateSimName (s : String) : Bool :=
  s.data.all fun ch => validCharCode ch.toNat

/-- `validateSimName` as the request handlers actually invoke it, on a
query-parameter value that may be absent.  With `simName` undefined the
loop's bound `simName.length` reads a property of `undefined` and throws a
`TypeError` (phettest-server.js:248). -/
def validateSimNameJS : Option String → Except JSError Bool
  | none => .error .typeError
  | some s => .ok (validateSimName s)

/-! ### Task handlers

Each handler is translated into the timeline of actions it performs, given
the close codes `c` of its spawns (in spawn order).  `sim` is the query
parameter, `none` when absent.  A thrown `TypeError` ends the handler with
`Except.error`. -/

/-- `taskPull( req, res, query )` (phettest-server.js:204-218): validate
`query.sim`; invalid → 403 `Invalid sim name`; valid → `pull` with
`successFunction 'pull sim'` / `errorFunction 'pull sim'`. -/
def taskPullRun (sim : Option String) (c : Nat → Option Int) : Except JSError (List Action) :=
  match validateSimNameJS sim, sim with
  | .error e, _ => .error e
  | .ok false, _ => .ok [Action.respond 403 ⟨"Invalid sim name", false⟩]
  | .ok true, some simName =>
      .ok (pullRun simName (c 0) (c 1)
        [Action.respond 200 ⟨"pull " ++ simName, true⟩]
        fun code => [Action.respond 500 (errorResponse ("pull " ++ simName) code)])
  | .ok true, none => .error .typeError

/-- `taskBuild( req, res, query )` (phettest-server.js:128-152): validate
`query.sim`; invalid → 403; valid → kick off
`npmUpdate('chipper') → npmUpdate(sim) → grunt(sim)` with empty error
callbacks, and immediately (after the first spawn, before any close event)
respond 200 `Build kicked off` with success true. -/
def taskBuildRun (sim : Option String) (c : Nat → Option Int) : Except JSError (List Action) :=
  match validateSimNameJS sim, sim with
  | .error e, _ => .error e
  | .ok false, _ => .ok [Action.respond 403 ⟨"Invalid sim name", false⟩]
  | .ok true, some simName =>
      .ok (Action.spawn (npmUpdateCmd "chipper") ::
           Action.respond 200 ⟨"Build kicked off", true⟩ ::
           (if c 0 ≠ some 0 then []
            else Action.spawn (npmUpdateCmd simName) ::
              (if c 1 ≠ some 0 then []
               else [Action.spawn (gruntCmd simName)])))
  | .ok true, none => .error .typeError

/-- `taskSameAsRemoteMaster( req, res, query )` (phettest-server.js:229-243):
validate `query.repo`; invalid → 403 `Invalid repo name`; valid →
`isSameAsRemoteMaster` with `successFunction 'same'` as the success
continuation and `successFunction 'different'` as the failure continuation,
so a zero exit answers `same` and any other close code answers `different`,
both with status 200 and success true. -/
def taskSameAsRemoteMasterRun (repo : Option String) (c : Nat → Option Int) :
    Except JSError (List Action) :=
  match validateSimNameJS repo, repo with
  | .error e, _ => .error e
  | .ok false, _ => .ok [Action.respond 403 ⟨"Invalid repo name", false⟩]
  | .ok true, some simName =>
      .ok (execT (sameAsRemoteMasterCmd simName) (c 0)
        [Action.respond 200 ⟨"same", true⟩]
        fun _ => [Action.respond 200 ⟨"different", true⟩])
  | .ok true, none => .error .typeError

/-- `taskPullAll( req, res, query )` (phettest-server.js:220-227): run
pull-all.sh; on success run `gruntOutputJSAll` with
`successFunction 'pulled'` / `errorFunction 'output-js-all failed'`; on
failure `errorFunction 'pull failed'`. -/
def taskPullAllRun (c : Nat → Option Int) : List Action :=
  execT pullAllCmd (c 0)
    (execT gruntOutputJSAllCmd (c 1)
      [Action.respond 200 ⟨"pulled", true⟩]
      fun code => [Action.respond 500 (errorResponse "output-js-all failed" code)])
    fun code => [Action.respond 500 (errorResponse "pull failed" code)]

/-- The `update( true )` phase of `taskPerennialRefresh`
(phettest-server.js:180-200 with `asAlias` true, name `perennial-alias`):
pull, npm update, clone-missing-repos, then the final success response
`perennial and perennial-alias refresh`.  Close codes `c 4`..`c 7`. -/
def perennialUpdateAliasRun (c : Nat → Option Int) : List Action :=
  pullRun "perennial-alias" (c 4) (c 5)
    (execT (npmUpdateCmd "perennial-alias") (c 6)
      (execT cloneMissingReposCmd (c 7)
        [Action.respond 200 ⟨"perennial and perennial-alias refresh", true⟩]
        fun code => [Action.respond 500 (errorResponse "perennial-alias clone missing repos" code)])
      fun code => [Action.respond 500 (errorResponse "perennial-alias npm update" code)])
    fun code => [Action.respond 500 (errorResponse "pull perennial-alias" code)]

/-- `taskPerennialRefresh( req, res )` (phettest-server.js:177-202), i.e.
`update( false )` with name `perennial`: pull, npm update,
clone-missing-repos, and on success of the latter `update( true )` (the
perennial-alias phase).  Close codes `c 0`..`c 3`, then `c 4`..`c 7` in the
alias phase. -/
def taskPerennialRefreshRun (c : Nat → Option Int) : List Action :=
  pullRun "perennial" (c 0) (c 1)
    (execT (npmUpdateCmd "perennial") (c 2)
      (execT cloneMissingReposCmd (c 3)
        (perennialUpdateAliasRun c)
        fun code => [Action.respond 500 (errorResponse "perennial clone missing repos" code)])
      fun code => [Action.respond 500 (errorResponse "perennial npm update" code)])
    fun code => [Action.respond 500 (errorResponse "pull perennial" code)]

/-- The eight external commands of a full `/perennial-refresh` run, in their
declared order. -/
def perennialChain : List Cmd :=
  [ gitPullCmd "perennial", gruntOutputJSCmd "perennial",
    npmUpdateCmd "perennial", cloneMissingReposCmd,
    gitPullCmd "perennial-alias", gruntOutputJSCmd "perennial-alias",
    npmUpdateCmd "perennial-alias", cloneMissingReposCmd ]

/-- The step name `taskPerennialRefresh` reports when the i-th command of
`perennialChain` fails (both spawns of a `pull` report as `pull <name>`). -/
def perennialStepName (i : Nat) : String :=
  [ "pull perennial", "pull perennial", "perennial npm update",
    "perennial clone missing repos",
    "pull perennial-alias", "pull perennial-alias",
    "perennial-alias npm update", "perennial-alias clone missing repos"
  ].getD i ""

/-! ### The dashboard client: same-as-remote-master classification and the
sequential aggregation pass (phettest.js, src/unnamed/part_005) -/

/-- The per-repository status the dashboard displays, as set by
`checkSim` (part_005:199-232): up-to-date, out-of-date, or failed (the
text shown for the spec's CheckFailed); unknown is the initial `?`. -/
inductive MasterStatus where
  | unknown
  | upToDate
  | outOfDate
  | failed
deriving DecidableEq, Repr

/-- Classification of a parsed server response by `checkSim`'s done handler
(part_005:204-218): output `same` → up-to-date, `different` → out-of-date,
anything else → failed. -/
def classifyData (data : Response) : MasterStatus :=
  if data.output = "same" then .upToDate
  else if data.output = "different" then .outOfDate
  else .failed

/-- Classification of an AJAX outcome: a response goes through
`classifyData`; a failed request (`fail` handler, part_005:227-231) is
marked failed. -/
def classifyAjax : Option Response → MasterStatus
  | some data => classifyData data
  | none => .failed

/-- The response `/same-as-remote-master` writes for a validated repo whose
comparison script closes with `code`: `execute`'s dispatch sends
`code !== 0` to the failure continuation, which here is
`successFunction 'different'`; a zero code reaches `successFunction 'same'`
(phettest-server.js:87-90 and 242). -/
def serverSameResponse (code : Option Int) : Response :=
  if code ≠ some 0 then ⟨"different", true⟩ else ⟨"same", true⟩

/-- Modelled from the spec: the outcome of one comparison-script run as the
claim describes it — whether the script was spawned, its exit code, and its
parsed output.  The script itself (same-as-remote-master.sh) is not part of
the source tree; this type exists only to state the spec's classification
for comparison with the code's. -/
structure ScriptOutcome where
  spawned : Bool
  exitCode : Option Int
  stdout : String
deriving DecidableEq, Repr

/-- Modelled from the spec: the classification the claim asserts — a
successful run (spawned, exit 0) with parsed output `same` is up-to-date,
with parsed output `different` is out-of-date, and any other outcome
(nonzero exit, failed spawn, unparseable output) is CheckFailed. -/
def specCompareToRemote (o : ScriptOutcome) : MasterStatus :=
  if o.spawned = true ∧ o.exitCode = some 0 ∧ o.stdout = "same" then .upToDate
  else if o.spawned = true ∧ o.exitCode = some 0 ∧ o.stdout = "different" then .outOfDate
  else .failed

/-! ### The aggregation pass `checkSimSameMaster` (part_005:194-250)

The pass owns three pieces of state: the per-repository status text, the
`outOfDateSimRows` list, and the `simCheckingStatus` summary text written by
`updateSimCheckingStatus( true )`.  The AJAX outcome for each repository is
`resp : String → Option Response` (`none` = the request failed).  The
interpretation also produces the timeline of check events: the moment each
repository's request is issued, the moment its result arrives, and the
Done call. -/

/-- The mutable dashboard state of one aggregation pass. -/
structure PassState where
  statuses : List (String × MasterStatus)
  outOfDateRows : List String
  summary : Option String
deriving DecidableEq, Repr

/-- The initial pass state: every status element reads `?` (unknown here by
absence), no out-of-date rows, no summary. -/
def initPass : PassState := ⟨[], [], none⟩

/-- Writing one repository's status element: replace its entry, or append
one for a repository not seen before. -/
def setStatus : List (String × MasterStatus) → String → MasterStatus →
    List (String × MasterStatus)
  | [], sim, m => [(sim, m)]
  | (a, b) :: rest, sim, m =>
      if a = sim then (sim, m) :: rest else (a, b) :: setStatus rest sim m

/-- Reading one repository's displayed status. -/
def statusOf (l : List (String × MasterStatus)) (sim : String) : MasterStatus :=
  ((l.find? fun p => p.1 = sim).map Prod.snd).getD .unknown

/-- The helper `remove( array, element )` (part_005:339-341): filter out the
element. -/
def removeElement (array : List String) (element : String) : List String :=
  array.filter fun e => e ≠ element

/-- The done-handler bookkeeping of `checkSim` (part_005:204-218): output
`same` sets up-to-date and removes the row from `outOfDateSimRows`;
`different` sets out-of-date and pushes the row; anything else sets failed
and leaves the rows untouched. -/
def recordDone (st : PassState) (sim : String) (data : Response) : PassState :=
  if data.output = "same" then
    { st with statuses := setStatus st.statuses sim .upToDate,
              outOfDateRows := removeElement st.outOfDateRows sim }
  else if data.output = "different" then
    { st with statuses := setStatus st.statuses sim .outOfDate,
              outOfDateRows := st.outOfDateRows ++ [sim] }
  else
    { st with statuses := setStatus st.statuses sim .failed }

/-- The fail-handler bookkeeping of `checkSim` (part_005:227-231): mark the
repository failed; rows are untouched. -/
def recordFailed (st : PassState) (sim : String) : PassState :=
  { st with statuses := setStatus st.statuses sim .failed }

/-- `updateSimCheckingStatus( true )` (part_005:237-250): with out-of-date
rows present the summary text is cleared to the empty string, otherwise it
announces that nothing is out of date. -/
def updateSimCheckingStatus (st : PassState) : PassState :=
  if st.outOfDateRows.length ≠ 0 then { st with summary := some "" }
  else { st with summary := some "No out-of-date simulation repositories!" }

/-- An event on the timeline of one aggregation pass. -/
inductive CheckEv where
  | start (sim : String)
  | result (sim : String)
  | done
deriving DecidableEq, Repr

/-- The recursive worker `checkSim( sim )` with the remaining list `rest`
(the closure variable `reposToCheck`), part_005:199-232.  The done handler
classifies and then either recurses on the next repository or, with none
remaining, calls `updateSimCheckingStatus( true )`.  The fail handler marks
the repository failed and recurses only when repositories remain — with an
empty list it simply stops, and no Done call is made. -/
def checkSimRun (resp : String → Option Response) :
    String → List String → PassState → PassState × List CheckEv
  | sim, rest, st =>
    match resp sim, rest with
    | some data, r :: rs =>
        let next := checkSimRun resp r rs (recordDone st sim data)
        (next.1, CheckEv.start sim :: CheckEv.result sim :: next.2)
    | some data, [] =>
        (updateSimCheckingStatus (recordDone st sim data),
         [CheckEv.start sim, CheckEv.result sim, CheckEv.done])
    | none, r :: rs =>
        let next := checkSimRun resp r rs (recordFailed st sim)
        (next.1, CheckEv.start sim :: CheckEv.result sim :: next.2)
    | none, [] =>
        (recordFailed st sim, [CheckEv.start sim, CheckEv.result sim])

/-- `checkSimSameMaster( reposToCheck )` (part_005:194-235): shift the first
repository and run `checkSim` on it.  (On an empty list the source would
call `checkSim( undefined )` and throw; no claim exercises that case.) -/
def checkSimSameMasterRun (resp : String → Option Response) (repos : List String)
    (st : PassState) : PassState × List CheckEv :=
  match repos with
  | r :: rs => checkSimRun resp r rs st
  | [] => (st, [])

/-! ### Small helpers over action timelines -/

/-- Whether an action is a process spawn. -/
def isSpawn : Action → Bool
  | .spawn _ => true
  | .respond _ _ => false

/-- Whether an action is an HTTP response. -/
def isRespond : Action → Bool
  | .spawn _ => false
  | .respond _ _ => true

/-! ### Theorems -/

/-- C6: for every completed process, `execute` invokes the success
continuation exactly when the close code is 0, invokes the failure
continuation with the close code exactly when it is anything else
(JavaScript `code !== 0`, which also covers the null code), and invokes
exactly one continuation per close event. -/
theorem execute_close_continuations (code : Option Int) :
    (executeRun [PEvent.closeEvt code]).calls.length = 1 ∧
    ((executeRun [PEvent.closeEvt code]).calls = [ContCall.success] ↔ code = some 0) ∧
    ((executeRun [PEvent.closeEvt code]).calls = [ContCall.failure code] ↔ code ≠ some 0) := by
  by_cases h : code = some 0 <;>
    simp [executeRun, handleEvent, h]

/-- Witness for C6: a close code of 7 invokes exactly the failure
continuation, carrying 7. -/
theorem execute_close_continuations_check :
    (executeRun [PEvent.closeEvt (some 7)]).calls = [ContCall.failure (some 7)] :=
  (execute_close_continuations (some 7)).2.2.mpr (by decide)

/-- C4 counterexample: when the spawn fails and the host delivers only the
`error` event (Node.js documents that the exit events may or may not follow
an `error`), `execute` merely logs `uncaught error` and invokes neither the
success nor the failure continuation — so the invocation is not reported to
the caller as a Failure result, contrary to the claim. -/
theorem execute_spawnError_noContinuation :
    (executeRun [PEvent.errorEvt]).calls = [] ∧
    (executeRun [PEvent.errorEvt]).logs = ["uncaught error"] := by
  constructor <;> rfl

/-- C4 amended: on a failed spawn, `execute`'s `error` handler only logs the
error (the installed listener keeps the event from becoming a fatal
uncaught error) and invokes no continuation itself; the caller receives a
Failure only if the host additionally delivers a close event, whose null
code then reaches the failure callback and renders as the diagnostic
`... exit code null`. -/
theorem execute_spawnError_behavior :
    (executeRun [PEvent.errorEvt]).logs = ["uncaught error"] ∧
    (executeRun [PEvent.errorEvt]).calls = [] ∧
    (executeRun [PEvent.errorEvt, PEvent.closeEvt none]).calls = [ContCall.failure none] ∧
    errorResponse "pull perennial" none =
      ⟨"pull perennial exit code null", false⟩ := by
  refine ⟨rfl, rfl, rfl, rfl⟩

/-- C10: a request to /pull, /build or /same-as-remote-master without its
sim/repo query parameter reaches `validateSimName( undefined )`, whose loop
bound reads `length` of `undefined` and throws a `TypeError`; the handler
therefore ends in the thrown error rather than in any response envelope. -/
theorem missingParam_typeError (c : Nat → Option Int) :
    validateSimNameJS none = .error JSError.typeError ∧
    taskPullRun none c = .error JSError.typeError ∧
    taskBuildRun none c = .error JSError.typeError ∧
    taskSameAsRemoteMasterRun none c = .error JSError.typeError :=
  ⟨rfl, rfl, rfl, rfl⟩

/-- A string with a character outside hyphen-or-lowercase fails
`validateSimName`. -/
theorem validateSimName_eq_false_of_badChar (s : String)
    (h : ∃ ch ∈ s.data, ch.toNat ≠ 45 ∧ (ch.toNat < 97 ∨ 122 < ch.toNat)) :
    validateSimName s = false := by
  obtain ⟨ch, hmem, h45, hrange⟩ := h
  rw [validateSimName, List.all_eq_false]
  refine ⟨ch, hmem, ?_⟩
  simp [validCharCode, h45]
  omega

/-- C3: a /pull, /build or /same-as-remote-master request whose repository
name contains any character outside lowercase ASCII letters and hyphen is
answered with the 403 client-error envelope (success false) and the
handler's timeline holds that single response — zero processes are
spawned. -/
theorem invalidSimName_rejected_noSpawn (s : String) (c : Nat → Option Int)
    (h : ∃ ch ∈ s.data, ch.toNat ≠ 45 ∧ (ch.toNat < 97 ∨ 122 < ch.toNat)) :
    taskPullRun (some s) c = .ok [Action.respond 403 ⟨"Invalid sim name", false⟩] ∧
    taskBuildRun (some s) c = .ok [Action.respond 403 ⟨"Invalid sim name", false⟩] ∧
    taskSameAsRemoteMasterRun (some s) c =
      .ok [Action.respond 403 ⟨"Invalid repo name", false⟩] := by
  have hv : validateSimName s = false := validateSimName_eq_false_of_badChar s h
  refine ⟨?_, ?_, ?_⟩ <;>
    simp [taskPullRun, taskBuildRun, taskSameAsRemoteMasterRun, validateSimNameJS, hv]

/-- Witness for C3: the name `bad;name` (its `;` has code 59) is rejected
with 403 envelopes and no spawn on all three endpoints. -/
theorem invalidSimName_rejected_noSpawn_check :
    taskPullRun (some "bad;name") (fun _ => some 0) =
      .ok [Action.respond 403 ⟨"Invalid sim name", false⟩] ∧
    taskBuildRun (some "bad;name") (fun _ => some 0) =
      .ok [Action.respond 403 ⟨"Invalid sim name", false⟩] ∧
    taskSameAsRemoteMasterRun (some "bad;name") (fun _ => some 0) =
      .ok [Action.respond 403 ⟨"Invalid repo name", false⟩] :=
  invalidSimName_rejected_noSpawn "bad;name" (fun _ => some 0) (by decide)

/-- C1 counterexample: a comparison-script run that completes with exit
code 1 must, by the claim, be classified CheckFailed; the code instead has
the server answer `different` (status 200, success true) — `execute` routes
any nonzero close code to the `different` continuation and never parses the
script's output — and the dashboard classifies that response out-of-date. -/
theorem compareToRemote_claim_counterexample :
    taskSameAsRemoteMasterRun (some "acid") (fun _ => some 1) =
      .ok [Action.spawn (sameAsRemoteMasterCmd "acid"),
           Action.respond 200 ⟨"different", true⟩] ∧
    classifyAjax (some ⟨"different", true⟩) = MasterStatus.outOfDate ∧
    specCompareToRemote ⟨true, some 1, "different"⟩ = MasterStatus.failed ∧
    MasterStatus.outOfDate ≠ MasterStatus.failed := by
  refine ⟨rfl, rfl, rfl, by decide⟩

/-- C1 amended: the classification is driven by the comparison script's
exit code alone, not by parsed output — a validated repository is
classified up-to-date exactly when the script's close code is 0 and
out-of-date exactly when it is anything else (the server answers
`different` with success true in that case); CheckFailed arises only when
no well-formed response reaches the dashboard (e.g. the request fails). -/
theorem compareToRemote_exitCode_classification (repo : String)
    (h : validateSimName repo = true) (c : Nat → Option Int) :
    taskSameAsRemoteMasterRun (some repo) c =
      .ok [Action.spawn (sameAsRemoteMasterCmd repo),
           Action.respond 200 (serverSameResponse (c 0))] ∧
    (classifyAjax (some (serverSameResponse (c 0))) = MasterStatus.upToDate ↔
      c 0 = some 0) ∧
    (classifyAjax (some (serverSameResponse (c 0))) = MasterStatus.outOfDate ↔
      c 0 ≠ some 0) ∧
    classifyAjax none = MasterStatus.failed := by
  by_cases h0 : c 0 = some 0 <;>
    simp [taskSameAsRemoteMasterRun, validateSimNameJS, h, execT,
      serverSameResponse, classifyAjax, classifyData, h0]

/-- Witness for C1 amended: a zero exit code yields the `same` response and
the up-to-date classification. -/
theorem compareToRemote_exitCode_classification_check :
    taskSameAsRemoteMasterRun (some "acid") (fun _ => some 0) =
      .ok [Action.spawn (sameAsRemoteMasterCmd "acid"),
           Action.respond 200 (serverSameResponse (some 0))] ∧
    classifyAjax (some (serverSameResponse (some 0))) = MasterStatus.upToDate := by
  obtain ⟨h1, h2, -, -⟩ :=
    compareToRemote_exitCode_classification "acid" (by decide) (fun _ => some 0)
  exact ⟨h1, h2.mpr rfl⟩

/-- C2 counterexample: a /build request whose first pipeline step
(npm update of chipper, close code 1) fails is nevertheless answered with
status 200, success true and output `Build kicked off` — the response is
written before any step's outcome is known and the failing step produces no
diagnostic, so the envelope does not reflect the pipeline's terminal
state. -/
theorem taskBuild_claim_counterexample :
    taskBuildRun (some "acid") (fun _ => some 1) =
      .ok [Action.spawn (npmUpdateCmd "chipper"),
           Action.respond 200 ⟨"Build kicked off", true⟩] := by
  rfl

/-- C2 amended: for a valid repository name, /build always responds
success true with output `Build kicked off`, immediately after the first
spawn and independent of every step's outcome; step failures are swallowed
(the empty error callbacks produce no response), while execution itself is
fail-fast — a failing step prevents every later step from spawning. -/
theorem taskBuild_kickoff_behavior (sim : String)
    (h : validateSimName sim = true) (c : Nat → Option Int) :
    ∃ acts, taskBuildRun (some sim) c = .ok acts ∧
      acts.take 2 = [Action.spawn (npmUpdateCmd "chipper"),
                     Action.respond 200 ⟨"Build kicked off", true⟩] ∧
      acts.filter isRespond = [Action.respond 200 ⟨"Build kicked off", true⟩] ∧
      (c 0 ≠ some 0 → acts.filter isSpawn = [Action.spawn (npmUpdateCmd "chipper")]) ∧
      (c 0 = some 0 → c 1 ≠ some 0 →
        acts.filter isSpawn = [Action.spawn (npmUpdateCmd "chipper"),
                               Action.spawn (npmUpdateCmd sim)]) ∧
      (c 0 = some 0 → c 1 = some 0 →
        acts.filter isSpawn = [Action.spawn (npmUpdateCmd "chipper"),
                               Action.spawn (npmUpdateCmd sim),
                               Action.spawn (gruntCmd sim)]) := by
  refine ⟨Action.spawn (npmUpdateCmd "chipper") ::
          Action.respond 200 ⟨"Build kicked off", true⟩ ::
          (if c 0 ≠ some 0 then []
           else Action.spawn (npmUpdateCmd sim) ::
             (if c 1 ≠ some 0 then []
              else [Action.spawn (gruntCmd sim)])), ?_, ?_, ?_, ?_, ?_, ?_⟩
  · simp [taskBuildRun, validateSimNameJS, h]
  · rfl
  all_goals
    by_cases h0 : c 0 = some 0 <;> by_cases h1 : c 1 = some 0 <;>
      simp [isRespond, isSpawn, h0, h1]

/-- Witness for C2 amended: with both close codes 1 the response is still
the kicked-off success envelope and only the first step spawned. -/
theorem taskBuild_kickoff_behavior_check :
    ∃ acts, taskBuildRun (some "acid") (fun _ => some 1) = .ok acts ∧
      acts.filter isRespond = [Action.respond 200 ⟨"Build kicked off", true⟩] ∧
      acts.filter isSpawn = [Action.spawn (npmUpdateCmd "chipper")] := by
  obtain ⟨acts, h1, -, h3, h4, -, -⟩ :=
    taskBuild_kickoff_behavior "acid" (by decide) (fun _ => some 1)
  exact ⟨acts, h1, h3, h4 (by decide)⟩

/-- C8: when pull-all succeeds (close code 0) and the output-js-all rebuild
closes with a nonzero code n, /pull-all answers status 500, success false,
with output `output-js-all failed exit code n`; and the rebuild command is
spawned only on the success branch of the synchronize step — when pull-all
fails, the timeline holds no rebuild spawn at all. -/
theorem pullAll_rebuild_failure (n : Int) (hn : n ≠ 0) (c : Nat → Option Int)
    (h0 : c 0 = some 0) (h1 : c 1 = some n) :
    taskPullAllRun c =
      [Action.spawn pullAllCmd, Action.spawn gruntOutputJSAllCmd,
       Action.respond 500 ⟨"output-js-all failed exit code " ++ toString n, false⟩] ∧
    (∀ c2 : Nat → Option Int, c2 0 ≠ some 0 →
      taskPullAllRun c2 =
        [Action.spawn pullAllCmd,
         Action.respond 500 (errorResponse "pull failed" (c2 0))]) := by
  constructor
  · simp [taskPullAllRun, execT, h0, h1, hn, errorResponse, jsCodeString]
  · intro c2 hc2
    simp [taskPullAllRun, execT, hc2]

/-- Witness for C8: with codes 0 then 4 the response names the rebuild step
and exit code 4. -/
theorem pullAll_rebuild_failure_check :
    taskPullAllRun (fun i => if i = 0 then some 0 else some 4) =
      [Action.spawn pullAllCmd, Action.spawn gruntOutputJSAllCmd,
       Action.respond 500 ⟨"output-js-all failed exit code 4", false⟩] :=
  (pullAll_rebuild_failure 4 (by decide) (fun i => if i = 0 then some 0 else some 4)
    (by decide) (by decide)).1

/-- C7: /perennial-refresh runs its declared command chain (pull and
output-js rebuild, npm update, clone-missing-repos — first for perennial,
then for perennial-alias) strictly in order: when every step closes with
code 0 the timeline is exactly the whole chain followed by the success
response, and when step i is the first to close with a nonzero (or null)
code the timeline is exactly the chain up to and including step i followed
by the 500 response naming that step and its exit code — no later step is
ever spawned, and each step appears only after the previous one's close
code arrived. -/
theorem perennialRefresh_ordered_failFast (c : Nat → Option Int) :
    ((∀ i, i < 8 → c i = some 0) →
      taskPerennialRefreshRun c =
        perennialChain.map Action.spawn ++
          [Action.respond 200 ⟨"perennial and perennial-alias refresh", true⟩]) ∧
    (∀ i, i < 8 → (∀ j, j < i → c j = some 0) → c i ≠ some 0 →
      taskPerennialRefreshRun c =
        (perennialChain.take (i + 1)).map Action.spawn ++
          [Action.respond 500 (errorResponse (perennialStepName i) (c i))]) := by
  constructor
  · intro hall
    have e0 := hall 0 (by norm_num); have e1 := hall 1 (by norm_num)
    have e2 := hall 2 (by norm_num); have e3 := hall 3 (by norm_num)
    have e4 := hall 4 (by norm_num); have e5 := hall 5 (by norm_num)
    have e6 := hall 6 (by norm_num); have e7 := hall 7 (by norm_num)
    simp [taskPerennialRefreshRun, perennialUpdateAliasRun, pullRun, execT,
      perennialChain, e0, e1, e2, e3, e4, e5, e6, e7]
  · intro i hi hprev hfail
    interval_cases i
    · simp [taskPerennialRefreshRun, pullRun, execT,
        perennialChain, perennialStepName, hfail]
    · have e0 := hprev 0 (by norm_num)
      simp [taskPerennialRefreshRun, pullRun, execT,
        perennialChain, perennialStepName, e0, hfail]
    · have e0 := hprev 0 (by norm_num); have e1 := hprev 1 (by norm_num)
      simp [taskPerennialRefreshRun, pullRun, execT,
        perennialChain, perennialStepName, e0, e1, hfail]
    · have e0 := hprev 0 (by norm_num); have e1 := hprev 1 (by norm_num)
      have e2 := hprev 2 (by norm_num)
      simp [taskPerennialRefreshRun, pullRun, execT,
        perennialChain, perennialStepName, e0, e1, e2, hfail]
    · have e0 := hprev 0 (by norm_num); have e1 := hprev 1 (by norm_num)
      have e2 := hprev 2 (by norm_num); have e3 := hprev 3 (by norm_num)
      simp [taskPerennialRefreshRun, perennialUpdateAliasRun, pullRun, execT,
        perennialChain, perennialStepName, e0, e1, e2, e3, hfail]
    · have e0 := hprev 0 (by norm_num); have e1 := hprev 1 (by norm_num)
      have e2 := hprev 2 (by norm_num); have e3 := hprev 3 (by norm_num)
      have e4 := hprev 4 (by norm_num)
      simp [taskPerennialRefreshRun, perennialUpdateAliasRun, pullRun, execT,
        perennialChain, perennialStepName, e0, e1, e2, e3, e4, hfail]
    · have e0 := hprev 0 (by norm_num); have e1 := hprev 1 (by norm_num)
      have e2 := hprev 2 (by norm_num); have e3 := hprev 3 (by norm_num)
      have e4 := hprev 4 (by norm_num); have e5 := hprev 5 (by norm_num)
      simp [taskPerennialRefreshRun, perennialUpdateAliasRun, pullRun, execT,
        perennialChain, perennialStepName, e0, e1, e2, e3, e4, e5, hfail]
    · have e0 := hprev 0 (by norm_num); have e1 := hprev 1 (by norm_num)
      have e2 := hprev 2 (by norm_num); have e3 := hprev 3 (by norm_num)
      have e4 := hprev 4 (by norm_num); have e5 := hprev 5 (by norm_num)
      have e6 := hprev 6 (by norm_num)
      simp [taskPerennialRefreshRun, perennialUpdateAliasRun, pullRun, execT,
        perennialChain, perennialStepName, e0, e1, e2, e3, e4, e5, e6, hfail]

/-- Witness for C7: with the first two steps succeeding and the third (npm
update of perennial) closing with code 3, exactly the first three commands
run and the response names `perennial npm update exit code 3`. -/
theorem perennialRefresh_ordered_failFast_check :
    taskPerennialRefreshRun (fun i => if i < 2 then some 0 else some 3) =
      (perennialChain.take 3).map Action.spawn ++
        [Action.respond 500 (errorResponse (perennialStepName 2)
          ((fun i => if i < 2 then some 0 else some 3) 2))] :=
  (perennialRefresh_ordered_failFast (fun i => if i < 2 then some 0 else some 3)).2
    2 (by norm_num) (by intro j hj; interval_cases j <;> rfl) (by decide)

/-! ### Lemmas about the aggregation-pass state -/

theorem statusOf_setStatus_self (l : List (String × MasterStatus)) (sim : String)
    (m : MasterStatus) : statusOf (setStatus l sim m) sim = m := by
  induction l with
  | nil => simp [setStatus, statusOf]
  | cons p rest ih =>
      obtain ⟨a, b⟩ := p
      by_cases hab : a = sim
      · simp [setStatus, hab, statusOf]
      · simpa [setStatus, hab, statusOf] using ih

theorem statusOf_setStatus_ne (l : List (String × MasterStatus)) (sim sim' : String)
    (m : MasterStatus) (h : sim' ≠ sim) :
    statusOf (setStatus l sim m) sim' = statusOf l sim' := by
  have hne : ¬(sim = sim') := fun hc => h hc.symm
  induction l with
  | nil => simp [setStatus, statusOf, hne]
  | cons p rest ih =>
      obtain ⟨a, b⟩ := p
      by_cases hab : a = sim
      · subst hab
        simp [setStatus, statusOf, hne]
      · by_cases ha' : a = sim'
        · simp [setStatus, hab, statusOf, ha', h]
        · simpa [setStatus, hab, statusOf, ha'] using ih

theorem recordDone_statuses (st : PassState) (sim : String) (data : Response) :
    (recordDone st sim data).statuses = setStatus st.statuses sim (classifyData data) := by
  by_cases hs : data.output = "same"
  · simp [recordDone, classifyData, hs]
  · by_cases hd : data.output = "different" <;> simp [recordDone, classifyData, hs, hd]

theorem recordDone_summary (st : PassState) (sim : String) (data : Response) :
    (recordDone st sim data).summary = st.summary := by
  by_cases hs : data.output = "same"
  · simp [recordDone, hs]
  · by_cases hd : data.output = "different" <;> simp [recordDone, hs, hd]

theorem recordFailed_statuses (st : PassState) (sim : String) :
    (recordFailed st sim).statuses = setStatus st.statuses sim .failed := rfl

theorem recordFailed_summary (st : PassState) (sim : String) :
    (recordFailed st sim).summary = st.summary := rfl

theorem updateSimCheckingStatus_statuses (st : PassState) :
    (updateSimCheckingStatus st).statuses = st.statuses := by
  by_cases h : st.outOfDateRows.length ≠ 0 <;> simp [updateSimCheckingStatus, h]

theorem updateSimCheckingStatus_summary_isSome (st : PassState) :
    (updateSimCheckingStatus st).summary.isSome = true := by
  by_cases h : st.outOfDateRows.length ≠ 0 <;> simp [updateSimCheckingStatus, h]

/-- C5 counterexample: in the pass over [aa, bb, cc] where the check of the
last repository cc fails (its request errors) while aa and bb come back
`same`, all three repositories are visited and recorded — yet the pass
never declares Done: `updateSimCheckingStatus( true )` is never called, the
summary stays unset and no done event appears on the timeline, contrary to
the claim's "including when the failing repository is the last one". -/
theorem aggregation_doneMissing_counterexample :
    (checkSimSameMasterRun
        (fun s => if s = "cc" then none else some ⟨"same", true⟩)
        ["aa", "bb", "cc"] initPass).1.statuses =
      [("aa", MasterStatus.upToDate), ("bb", MasterStatus.upToDate),
       ("cc", MasterStatus.failed)] ∧
    (checkSimSameMasterRun
        (fun s => if s = "cc" then none else some ⟨"same", true⟩)
        ["aa", "bb", "cc"] initPass).1.summary = none ∧
    (checkSimSameMasterRun
        (fun s => if s = "cc" then none else some ⟨"same", true⟩)
        ["aa", "bb", "cc"] initPass).2 =
      [CheckEv.start "aa", CheckEv.result "aa", CheckEv.start "bb",
       CheckEv.result "bb", CheckEv.start "cc", CheckEv.result "cc"] := by
  refine ⟨rfl, rfl, rfl⟩

/-- C5 amended: in a pass over [r1, r2, r3] where r2's check fails, the
failure is recorded as failed (CheckFailed) for r2 only, the pass continues
through all three repositories, r1 and r3 are classified from their own
responses, and Done is declared (the summary emitted) after all three are
visited; but when it is the last repository r3 whose check fails, the pass
still visits and records all three yet ends without declaring Done — no
summary is emitted. -/
theorem aggregation_pass_fault_isolation (r1 r2 r3 : String)
    (resp : String → Option Response)
    (h12 : r1 ≠ r2) (h13 : r1 ≠ r3) (h23 : r2 ≠ r3)
    (d1 d3 : Response) (h1 : resp r1 = some d1) (h2 : resp r2 = none)
    (h3 : resp r3 = some d3) :
    (statusOf (checkSimSameMasterRun resp [r1, r2, r3] initPass).1.statuses r1 =
        classifyData d1 ∧
      statusOf (checkSimSameMasterRun resp [r1, r2, r3] initPass).1.statuses r2 =
        MasterStatus.failed ∧
      statusOf (checkSimSameMasterRun resp [r1, r2, r3] initPass).1.statuses r3 =
        classifyData d3 ∧
      (checkSimSameMasterRun resp [r1, r2, r3] initPass).1.summary.isSome = true) ∧
    (∀ (resp2 : String → Option Response) (e1 e2 : Response),
      resp2 r1 = some e1 → resp2 r2 = some e2 → resp2 r3 = none →
      statusOf (checkSimSameMasterRun resp2 [r1, r2, r3] initPass).1.statuses r1 =
          classifyData e1 ∧
        statusOf (checkSimSameMasterRun resp2 [r1, r2, r3] initPass).1.statuses r2 =
          classifyData e2 ∧
        statusOf (checkSimSameMasterRun resp2 [r1, r2, r3] initPass).1.statuses r3 =
          MasterStatus.failed ∧
        (checkSimSameMasterRun resp2 [r1, r2, r3] initPass).1.summary = none) := by
  constructor
  · have key : (checkSimSameMasterRun resp [r1, r2, r3] initPass).1 =
        updateSimCheckingStatus
          (recordDone (recordFailed (recordDone initPass r1 d1) r2) r3 d3) := by
      simp [checkSimSameMasterRun, checkSimRun, h1, h2, h3]
    rw [key]
    rw [updateSimCheckingStatus_summary_isSome]
    rw [updateSimCheckingStatus_statuses, recordDone_statuses, recordFailed_statuses,
      recordDone_statuses]
    refine ⟨?_, ?_, ?_, rfl⟩
    · rw [statusOf_setStatus_ne _ _ _ _ h13, statusOf_setStatus_ne _ _ _ _ h12,
        statusOf_setStatus_self]
    · rw [statusOf_setStatus_ne _ _ _ _ h23, statusOf_setStatus_self]
    · rw [statusOf_setStatus_self]
  · intro resp2 e1 e2 g1 g2 g3
    have key : (checkSimSameMasterRun resp2 [r1, r2, r3] initPass).1 =
        recordFailed (recordDone (recordDone initPass r1 e1) r2 e2) r3 := by
      simp [checkSimSameMasterRun, checkSimRun, g1, g2, g3]
    rw [key]
    rw [recordFailed_summary, recordDone_summary, recordDone_summary]
    rw [recordFailed_statuses, recordDone_statuses, recordDone_statuses]
    refine ⟨?_, ?_, ?_, rfl⟩
    · rw [statusOf_setStatus_ne _ _ _ _ h13, statusOf_setStatus_ne _ _ _ _ h12,
        statusOf_setStatus_self]
    · rw [statusOf_setStatus_ne _ _ _ _ h23, statusOf_setStatus_self]
    · rw [statusOf_setStatus_self]

/-- Witness for C5 amended: a concrete pass over [aa, bb, cc] with bb's
request failing: aa up-to-date, bb failed, cc out-of-date, summary
emitted; and with the requests answering for aa and bb but failing for cc,
the summary stays unset. -/
theorem aggregation_pass_fault_isolation_check :
    (statusOf (checkSimSameMasterRun
        (fun s => if s = "bb" then none
                  else if s = "cc" then some ⟨"different", true⟩
                  else some ⟨"same", true⟩) ["aa", "bb", "cc"] initPass).1.statuses "bb" =
      MasterStatus.failed) ∧
    (checkSimSameMasterRun
        (fun s => if s = "bb" then none
                  else if s = "cc" then some ⟨"different", true⟩
                  else some ⟨"same", true⟩) ["aa", "bb", "cc"] initPass).1.summary.isSome =
      true ∧
    (checkSimSameMasterRun
        (fun s => if s = "cc" then none else some ⟨"same", true⟩)
        ["aa", "bb", "cc"] initPass).1.summary = none := by
  obtain ⟨⟨-, hb, -, hs⟩, hlast⟩ :=
    aggregation_pass_fault_isolation "aa" "bb" "cc"
      (fun s => if s = "bb" then none
                else if s = "cc" then some ⟨"different", true⟩
                else some ⟨"same", true⟩)
      (by decide) (by decide) (by decide)
      ⟨"same", true⟩ ⟨"different", true⟩ rfl rfl rfl
  refine ⟨hb, hs, ?_⟩
  exact (hlast (fun s => if s = "cc" then none else some ⟨"same", true⟩)
    ⟨"same", true⟩ ⟨"same", true⟩ rfl rfl rfl).2.2.2

/-- The repository of a check-start event. -/
def startOf : CheckEv → Option String
  | .start s => some s
  | _ => none

/-- The repository of a check-result event. -/
def resultOf : CheckEv → Option String
  | .result s => some s
  | _ => none

theorem filterMap_startOf_pairs (l : List String) :
    (l.flatMap fun r => [CheckEv.start r, CheckEv.result r]).filterMap startOf = l := by
  induction l with
  | nil => rfl
  | cons r rs ih => simp [startOf, ih]

theorem filterMap_resultOf_pairs (l : List String) :
    (l.flatMap fun r => [CheckEv.start r, CheckEv.result r]).filterMap resultOf = l := by
  induction l with
  | nil => rfl
  | cons r rs ih => simp [resultOf, ih]

/-- The repository checked last in a pass that starts at `sim` with
remaining list `rest`: the last element of `sim :: rest`. -/
def lastRepo (sim : String) (rest : List String) : String :=
  rest.foldl (fun _ x => x) sim

/-- C9: the timeline of one aggregation pass is exactly
start r1, result r1, start r2, result r2, ..., in list order, optionally
followed by the Done call (present exactly when the last repository's
request gets a response): every repository's check starts only after the
previous repository's result has been received, so at most one check is in
flight at any time, and the starts (and results) enumerate the repository
list in order. -/
theorem aggregation_sequential_trace (resp : String → Option Response)
    (sim : String) (rest : List String) (st : PassState) :
    (checkSimRun resp sim rest st).2 =
      ((sim :: rest).flatMap fun r => [CheckEv.start r, CheckEv.result r]) ++
        (if (resp (lastRepo sim rest)).isSome then [CheckEv.done] else []) ∧
    (checkSimRun resp sim rest st).2.filterMap startOf = sim :: rest ∧
    (checkSimRun resp sim rest st).2.filterMap resultOf = sim :: rest := by
  have key : ∀ (rest : List String) (sim : String) (st : PassState),
      (checkSimRun resp sim rest st).2 =
        ((sim :: rest).flatMap fun r => [CheckEv.start r, CheckEv.result r]) ++
          (if (resp (lastRepo sim rest)).isSome then [CheckEv.done] else []) := by
    intro rest
    induction rest with
    | nil =>
        intro sim st
        cases hr : resp sim <;> simp [checkSimRun, lastRepo, hr]
    | cons r rs ih =>
        intro sim st
        have hl : lastRepo sim (r :: rs) = lastRepo r rs := rfl
        cases hr : resp sim <;> simp [checkSimRun, hr, ih, hl]
  refine ⟨key rest sim st, ?_, ?_⟩ <;>
    rw [key rest sim st] <;>
    cases hl : (resp (lastRepo sim rest)).isSome <;>
      simp [filterMap_startOf_pairs, filterMap_resultOf_pairs, startOf, resultOf]

end Phetmarks
